import Mathlib

/-!
Verification of the library-state core of the Botan repository
(`src/src/libstate/libstate.cpp`): configuration store, alias table,
allocator registry with a cached default, the one-time initialization
protocol (`Library_State::initialize`, modelled here as `init_state`),
the global-state accessor triad, and teardown.

The embedding is a shallow one: `std::map<std::string, T>` becomes an
association list with unique keys (`mapFind?` / `mapInsert` mirror
`map::find` and `map[k] = v`), pointer identity of providers becomes a
numeric `id` field, C++ exceptions become an `Option Botan_Error`
result, and mutation of `Library_State` fields becomes explicit state
passing.  The `while` loop of `deref_alias` is modelled with explicit
fuel, since the source loop has no termination guard.
-/

namespace BotanSpec

/-- A secure-memory allocator provider.  `id` models the identity of the
C++ object (its address); `typ` models the string returned by
`Allocator::type()`. -/
structure Allocator where
  id : Nat
  typ : String
deriving DecidableEq, Repr

/-- An engine held by the `Algorithm_Factory`; `id` models object identity. -/
structure Engine where
  id : Nat
deriving DecidableEq, Repr

/-- The error kinds thrown by the code under study:
`Invalid_State` and `Self_Test_Failure`, each carrying the message text. -/
inductive Botan_Error where
  | Invalid_State (msg : String)
  | Self_Test_Failure (msg : String)
deriving DecidableEq, Repr

/-- Models `std::map::find` on an association list with unique keys: the value at
`k`, if present. -/
def mapFind? {α : Type} : List (String × α) → String → Option α
  | [], _ => none
  | (k', v') :: rest, k => if k' = k then some v' else mapFind? rest k

/-- Models `map[k] = v` on an association list with unique keys: replace the
binding of `k` if present, otherwise append it. -/
def mapInsert {α : Type} : List (String × α) → String → α → List (String × α)
  | [], k, v => [(k, v)]
  | (k', v') :: rest, k, v =>
      if k' = k then (k, v) :: rest else (k', v') :: mapInsert rest k v

/-- The fields of `class Library_State`.  Locks are modelled only by
whether they have been allocated; the mutex factory by the identity of
the installed factory object. -/
structure Library_State where
  mutex_factory : Option Nat
  allocator_lock : Bool
  config_lock : Bool
  allocators : List Allocator
  alloc_factory : List (String × Allocator)
  cached_default_allocator : Option Allocator
  config : List (String × String)
  algorithm_factory : Option (List Engine)
deriving DecidableEq, Repr

/-- The `Library_State` constructor: every member null / empty. -/
def Library_State.fresh : Library_State :=
  { mutex_factory := none
    allocator_lock := false
    config_lock := false
    allocators := []
    alloc_factory := []
    cached_default_allocator := none
    config := []
    algorithm_factory := none }

/-- Source `Library_State::get`: the configuration value under
`section + "/" + key`, or `""` if absent. -/
def Library_State.get (st : Library_State) (sec key : String) : String :=
  (mapFind? st.config (sec ++ "/" ++ key)).getD ""

/-- Source `Library_State::is_set`: whether an entry exists under
`section + "/" + key`, independent of its value. -/
def Library_State.is_set (st : Library_State) (sec key : String) : Bool :=
  (mapFind? st.config (sec ++ "/" ++ key)).isSome

/-- Source `Library_State::set`: write `value` under `section + "/" + key` when
`overwrite` is requested, or no entry exists, or the existing entry's
value is the empty string. -/
def Library_State.set (st : Library_State) (sec key value : String)
    (overwrite : Bool) : Library_State :=
  let full_key := sec ++ "/" ++ key
  let i := mapFind? st.config full_key
  if overwrite = true ∨ i = none ∨ i = some "" then
    { st with config := mapInsert st.config full_key value }
  else st

/-- Source `Library_State::add_alias`: a `set` into the `alias` section.  The
`overwrite` default of `set` is `true` (declared in the header, which is
not under `src/`; the spec, §4.2, gives `overwrite=true` as the default). -/
def Library_State.add_alias (st : Library_State) (key value : String) :
    Library_State :=
  st.set "alias" key value true

/-- Source `Library_State::deref_alias`'s `while(is_set("alias", result))` loop,
with explicit fuel: `none` means the loop did not finish within `fuel`
iterations. -/
def Library_State.deref_alias_fuel (st : Library_State) (key : String) :
    Nat → Option String
  | 0 => none
  | fuel + 1 =>
      if st.is_set "alias" key then
        st.deref_alias_fuel (st.get "alias" key) fuel
      else some key

/-- The loop of `deref_alias` terminates on `key`: some finite fuel
suffices. -/
def Library_State.Deref_Terminates (st : Library_State) (key : String) :
    Prop :=
  ∃ fuel, (st.deref_alias_fuel key fuel).isSome

/-- One iteration of the `deref_alias` loop body. -/
def Library_State.alias_step (st : Library_State) (r : String) : String :=
  st.get "alias" r

/-- Source `Library_State::option`: a `get` from the `conf` section. -/
def Library_State.option (st : Library_State) (key : String) : String :=
  st.get "conf" key

/-- Source `search_map(alloc_factory, name, 0)`: look a provider up by name,
null (`none`) when absent. -/
def allocSearch (m : List (String × Allocator)) (k : String) :
    Option Allocator :=
  mapFind? m k

/-- Source `Library_State::get_allocator`.  A non-empty `typ` is a plain lookup.
An empty `typ` returns the cached default; on a cache miss the
`base/default_allocator` option (or `"malloc"` when that is empty) is
resolved against `alloc_factory` and the result memoized — the method is
`const` in C++ but writes the mutable cache, so here it returns the
possibly-updated state as well. -/
def Library_State.get_allocator (st : Library_State) (typ : String) :
    Option Allocator × Library_State :=
  if typ ≠ "" then (allocSearch st.alloc_factory typ, st)
  else
    match st.cached_default_allocator with
    | some a => (some a, st)
    | none =>
        let chosen0 := st.option "base/default_allocator"
        let chosen := if chosen0 = "" then "malloc" else chosen0
        let r := allocSearch st.alloc_factory chosen
        (r, { st with cached_default_allocator := r })

/-- Source `Library_State::add_allocator`: `init()` the provider (one call, at
registration), push it onto the owned `allocators` vector, and register
it in `alloc_factory` under its reported type name, overwriting any
prior binding of that name. -/
def Library_State.add_allocator (st : Library_State) (a : Allocator) :
    Library_State :=
  { st with
      allocators := st.allocators ++ [a]
      alloc_factory := mapInsert st.alloc_factory a.typ a }

/-- Source `Library_State::set_default_allocator`: a no-op on the empty string;
otherwise write `conf/base/default_allocator` and invalidate the cached
default. -/
def Library_State.set_default_allocator (st : Library_State)
    (typ : String) : Library_State :=
  if typ = "" then st
  else
    { st.set "conf" "base/default_allocator" typ true with
        cached_default_allocator := none }

/-- Source `Library_State::algo_factory`: throw `Invalid_State` when the factory
has not been constructed, otherwise return it. -/
def Library_State.algo_factory (st : Library_State) :
    Except Botan_Error (List Engine) :=
  match st.algorithm_factory with
  | none =>
      .error (.Invalid_State "Uninitialized in Library_State::algo_factory")
  | some f => .ok f

/-- Source `Algorithm_Factory::add_engine`: append an engine to the factory's
ordered collection (no-op on a null factory, which `init_state` never
produces at this point). -/
def Library_State.add_engine (st : Library_State) (e : Engine) :
    Library_State :=
  { st with algorithm_factory := st.algorithm_factory.map (· ++ [e]) }

/-- Modelled from the spec: `load_default_config` is declared outside
`src/`; per §4.4 step 7 it loads built-in default configuration entries
with non-overwriting `set` calls.  The concrete entry list
(`section, key, value` triples) is not fixed by the spec, so it is taken
as a parameter. -/
def Library_State.load_default_config (st : Library_State)
    (entries : List (String × String × String)) : Library_State :=
  entries.foldl (fun s e => s.set e.1 e.2.1 e.2.2 false) st

/-- Modelled from the spec: the parts of the build outside `src/` that
`Library_State::initialize` consults — whether `BOTAN_HAS_SELFTEST` is
compiled in, the verdict of `passes_self_tests()` (§6: a
boolean-returning check), and the entries loaded by
`load_default_config`. -/
structure Build_Env where
  selftest_compiled : Bool
  passes_self_tests : Bool
  default_config : List (String × String × String)
deriving DecidableEq, Repr

/-- The `InitializerOptions` flags consulted by the code under study. -/
structure InitializerOptions where
  thread_safe : Bool
  fips_mode : Bool
  self_test : Bool
deriving DecidableEq, Repr

/-- The `Modules` descriptor: a mutex factory keyed on the thread-safety
flag (null possible), the offered allocator providers, the suggested
default allocator name, and the offered engines. -/
structure Modules where
  mutex_factory : Bool → Option Nat
  allocators : List Allocator
  default_allocator : String
  engines : List Engine

/-- Source `Library_State::initialize` (renamed `init_state` here).  Errors are
returned as `some e` together with the state as left by the aborted
call, so partial mutation before a throw is observable, exactly as for
the C++ member.  The step order follows the source: double-init check,
mutex factory, locks, cache reset, allocators, default allocator name,
default config, algorithm factory, engines, self-test gate. -/
def Library_State.init_state (st : Library_State) (env : Build_Env)
    (args : InitializerOptions) (mods : Modules) :
    Option Botan_Error × Library_State :=
  if st.mutex_factory.isSome then
    (some (.Invalid_State "Library_State has already been initialized"), st)
  else
    match mods.mutex_factory args.thread_safe with
    | none =>
        (some (.Invalid_State "Could not acquire a mutex module at init"),
         { st with mutex_factory := none })
    | some mf =>
        let s1 : Library_State :=
          { st with
              mutex_factory := some mf
              allocator_lock := true
              config_lock := true
              cached_default_allocator := none }
        let s2 := mods.allocators.foldl (fun s a => s.add_allocator a) s1
        let s3 := s2.set_default_allocator mods.default_allocator
        let s4 := s3.load_default_config env.default_config
        let s5 := { s4 with algorithm_factory := some [] }
        let s6 := mods.engines.foldl (fun s e => s.add_engine e) s5
        if env.selftest_compiled && (args.fips_mode || args.self_test)
            && !env.passes_self_tests then
          (some (.Self_Test_Failure "Initialization self-tests"), s6)
        else (none, s6)

/-- The sequence of providers on which `~Library_State` invokes
`destroy()`: the destructor loops over the owned `allocators` vector in
index order, one `destroy()` per element. -/
def Library_State.destructor_destroy_seq (st : Library_State) :
    List Allocator :=
  st.allocators

/-- The process-wide environment of the global accessor: the
`global_lib_state` pointer (by object identity) and the set of
`Library_State` objects not yet destroyed. -/
structure Global_Env where
  global_lib_state : Option Nat
  live_states : List Nat
deriving DecidableEq, Repr

/-- Source `swap_global_state`: install the new state, return the previous
pointer; nothing is destroyed. -/
def swap_global_state (new_state : Option Nat) (env : Global_Env) :
    Option Nat × Global_Env :=
  (env.global_lib_state, { env with global_lib_state := new_state })

/-- Models `delete` on a (possibly null) `Library_State*`: remove the object
from the live set; deleting null is a no-op. -/
def delete_state (p : Option Nat) (env : Global_Env) : Global_Env :=
  match p with
  | none => env
  | some i => { env with live_states := env.live_states.erase i }

/-- Source `set_global_state`: exactly `delete swap_global_state(new_state)`. -/
def set_global_state (new_state : Option Nat) (env : Global_Env) :
    Global_Env :=
  let r := swap_global_state new_state env
  delete_state r.1 r.2

/-- Follows the spec's words (§4.1): `set_global_state` "installs a
caller-supplied state, destroying whatever was previously installed" —
written directly, for comparison with the source-derived
`set_global_state`. -/
def set_global_state_spec (new_state : Option Nat) (env : Global_Env) :
    Global_Env :=
  { global_lib_state := new_state
    live_states :=
      match env.global_lib_state with
      | none => env.live_states
      | some old => env.live_states.erase old }

/-!  Helper lemmas about the association-list map operations and about
which fields each `Library_State` operation can touch. -/

theorem mapFind?_mapInsert_self {α : Type} (m : List (String × α))
    (k : String) (v : α) : mapFind? (mapInsert m k v) k = some v := by
  induction m with
  | nil => simp [mapInsert, mapFind?]
  | cons p rest ih =>
      obtain ⟨k', v'⟩ := p
      by_cases hk : k' = k
      · simp [mapInsert, hk, mapFind?]
      · simp [mapInsert, hk, mapFind?, ih]

theorem set_config_eq (st : Library_State) (s k v : String) (ow : Bool)
    (h : ow = true ∨ mapFind? st.config (s ++ "/" ++ k) = none ∨
         mapFind? st.config (s ++ "/" ++ k) = some "") :
    st.set s k v ow = { st with config := mapInsert st.config (s ++ "/" ++ k) v } := by
  rw [Library_State.set]
  exact if_pos h

theorem set_skip_eq (st : Library_State) (s k v : String) (ow : Bool)
    (h : ¬ (ow = true ∨ mapFind? st.config (s ++ "/" ++ k) = none ∨
            mapFind? st.config (s ++ "/" ++ k) = some "")) :
    st.set s k v ow = st := by
  rw [Library_State.set]
  exact if_neg h

theorem get_set_self (st : Library_State) (s k v : String) (ow : Bool)
    (h : ow = true ∨ mapFind? st.config (s ++ "/" ++ k) = none ∨
         mapFind? st.config (s ++ "/" ++ k) = some "") :
    (st.set s k v ow).get s k = v := by
  rw [set_config_eq st s k v ow h, Library_State.get]
  simp [mapFind?_mapInsert_self]

theorem set_mutex_factory (st : Library_State) (s k v : String) (ow : Bool) :
    (st.set s k v ow).mutex_factory = st.mutex_factory := by
  rw [Library_State.set]; split <;> rfl

theorem set_algorithm_factory (st : Library_State) (s k v : String)
    (ow : Bool) :
    (st.set s k v ow).algorithm_factory = st.algorithm_factory := by
  rw [Library_State.set]; split <;> rfl

theorem set_alloc_factory (st : Library_State) (s k v : String) (ow : Bool) :
    (st.set s k v ow).alloc_factory = st.alloc_factory := by
  rw [Library_State.set]; split <;> rfl

theorem set_allocators (st : Library_State) (s k v : String) (ow : Bool) :
    (st.set s k v ow).allocators = st.allocators := by
  rw [Library_State.set]; split <;> rfl

theorem foldl_add_allocator_mutex_factory (l : List Allocator) :
    ∀ s : Library_State,
      (l.foldl (fun s a => s.add_allocator a) s).mutex_factory
        = s.mutex_factory := by
  induction l with
  | nil => intro s; rfl
  | cons a l ih => intro s; rw [List.foldl_cons, ih]; rfl

theorem foldl_add_allocator_algorithm_factory (l : List Allocator) :
    ∀ s : Library_State,
      (l.foldl (fun s a => s.add_allocator a) s).algorithm_factory
        = s.algorithm_factory := by
  induction l with
  | nil => intro s; rfl
  | cons a l ih => intro s; rw [List.foldl_cons, ih]; rfl

theorem foldl_add_allocator_allocators (l : List Allocator) :
    ∀ s : Library_State,
      (l.foldl (fun s a => s.add_allocator a) s).allocators
        = s.allocators ++ l := by
  induction l with
  | nil => intro s; simp
  | cons a l ih =>
      intro s
      rw [List.foldl_cons, ih]
      simp [Library_State.add_allocator]

theorem set_default_allocator_mutex_factory (st : Library_State)
    (t : String) :
    (st.set_default_allocator t).mutex_factory = st.mutex_factory := by
  rw [Library_State.set_default_allocator]
  split
  · rfl
  · show (st.set "conf" "base/default_allocator" t true).mutex_factory = _
    exact set_mutex_factory ..

theorem set_default_allocator_algorithm_factory (st : Library_State)
    (t : String) :
    (st.set_default_allocator t).algorithm_factory
      = st.algorithm_factory := by
  rw [Library_State.set_default_allocator]
  split
  · rfl
  · show (st.set "conf" "base/default_allocator" t true).algorithm_factory = _
    exact set_algorithm_factory ..

theorem load_default_config_mutex_factory
    (entries : List (String × String × String)) :
    ∀ s : Library_State,
      (s.load_default_config entries).mutex_factory = s.mutex_factory := by
  induction entries with
  | nil => intro s; rfl
  | cons e l ih =>
      intro s
      rw [Library_State.load_default_config, List.foldl_cons]
      rw [show ∀ s' : Library_State, l.foldl (fun s e => s.set e.1 e.2.1 e.2.2 false) s'
            = s'.load_default_config l from fun _ => rfl]
      rw [ih, set_mutex_factory]

theorem load_default_config_algorithm_factory
    (entries : List (String × String × String)) :
    ∀ s : Library_State,
      (s.load_default_config entries).algorithm_factory
        = s.algorithm_factory := by
  induction entries with
  | nil => intro s; rfl
  | cons e l ih =>
      intro s
      rw [Library_State.load_default_config, List.foldl_cons]
      rw [show ∀ s' : Library_State, l.foldl (fun s e => s.set e.1 e.2.1 e.2.2 false) s'
            = s'.load_default_config l from fun _ => rfl]
      rw [ih, set_algorithm_factory]

theorem foldl_add_engine_mutex_factory (l : List Engine) :
    ∀ s : Library_State,
      (l.foldl (fun s e => s.add_engine e) s).mutex_factory
        = s.mutex_factory := by
  induction l with
  | nil => intro s; rfl
  | cons e l ih => intro s; rw [List.foldl_cons, ih]; rfl

theorem foldl_add_engine_algorithm_factory (l : List Engine) :
    ∀ (s : Library_State) (es : List Engine),
      s.algorithm_factory = some es →
      (l.foldl (fun s e => s.add_engine e) s).algorithm_factory
        = some (es ++ l) := by
  induction l with
  | nil => intro s es h; simpa using h
  | cons e l ih =>
      intro s es h
      rw [List.foldl_cons, ih (s.add_engine e) (es ++ [e])]
      · simp
      · rw [Library_State.add_engine]
        simp [h]

theorem init_state_success_fields (st : Library_State) (env : Build_Env)
    (args : InitializerOptions) (mods : Modules)
    (h : (st.init_state env args mods).1 = none) :
    (st.init_state env args mods).2.mutex_factory.isSome = true ∧
    (st.init_state env args mods).2.algorithm_factory = some mods.engines := by
  by_cases hm : st.mutex_factory.isSome
  · rw [Library_State.init_state, if_pos hm] at h
    exact absurd h (by simp)
  · cases hmf : mods.mutex_factory args.thread_safe with
    | none =>
        rw [Library_State.init_state, if_neg hm, hmf] at h
        exact absurd h (by simp)
    | some mf =>
        rw [Library_State.init_state, if_neg hm, hmf]
        have hsnd :
            ∀ (c : Bool) (e : Botan_Error) (s : Library_State),
              ((if c then (some e, s) else (none, s)) :
                Option Botan_Error × Library_State).2 = s := by
          intro c e s; split <;> rfl
        rw [hsnd]
        constructor
        · rw [foldl_add_engine_mutex_factory]
          show ((_ : Library_State).load_default_config _).mutex_factory.isSome = true
          rw [load_default_config_mutex_factory,
              set_default_allocator_mutex_factory,
              foldl_add_allocator_mutex_factory]
          rfl
        · rw [foldl_add_engine_algorithm_factory _ _ []]
          · simp
          · rfl

/-- A two-entry cyclic alias table: `add_alias("a","b")` then
`add_alias("b","a")` on a fresh state. -/
def cyclic_alias_state : Library_State :=
  (Library_State.fresh.add_alias "a" "b").add_alias "b" "a"

theorem cyclic_alias_no_fuel :
    ∀ (fuel : Nat) (r : String), r = "a" ∨ r = "b" →
      cyclic_alias_state.deref_alias_fuel r fuel = none := by
  intro fuel
  induction fuel with
  | zero => intro r _; rfl
  | succ n ih =>
      intro r hr
      rcases hr with h | h <;> subst h
      · rw [Library_State.deref_alias_fuel,
            if_pos (show cyclic_alias_state.is_set "alias" "a" = true
                      from by decide)]
        rw [show cyclic_alias_state.get "alias" "a" = "b" from by decide]
        exact ih "b" (Or.inr rfl)
      · rw [Library_State.deref_alias_fuel,
            if_pos (show cyclic_alias_state.is_set "alias" "b" = true
                      from by decide)]
        rw [show cyclic_alias_state.get "alias" "b" = "a" from by decide]
        exact ih "a" (Or.inl rfl)

/-- Fixture: a modules descriptor offering a mutex factory, two
allocator providers, a default allocator name, and two engines. -/
def modsW : Modules :=
  { mutex_factory := fun _ => some 7
    allocators := [⟨1, "malloc"⟩, ⟨2, "locking"⟩]
    default_allocator := "locking"
    engines := [⟨10⟩, ⟨11⟩] }

/-- Fixture: self-tests compiled in and passing, one default entry. -/
def envW : Build_Env :=
  { selftest_compiled := true
    passes_self_tests := true
    default_config := [("conf", "k", "v")] }

/-- Fixture: thread-safe requested, no FIPS mode, no explicit self-test. -/
def argsW : InitializerOptions :=
  { thread_safe := true, fips_mode := false, self_test := false }

/-- C1: once `initialize` has succeeded on a state (so a mutex factory is
installed), a further `initialize` call fails with the invalid-state
error and returns the state exactly as it was — in particular the
configuration entries, the registered allocator providers, and the
algorithm-factory engines of the first initialization are untouched. -/
theorem C1_double_init (env1 env2 : Build_Env) (a1 a2 : InitializerOptions)
    (m1 m2 : Modules) (st0 : Library_State)
    (hsucc : (st0.init_state env1 a1 m1).1 = none) :
    ((st0.init_state env1 a1 m1).2.init_state env2 a2 m2).1
        = some (Botan_Error.Invalid_State
                  "Library_State has already been initialized")
    ∧ ((st0.init_state env1 a1 m1).2.init_state env2 a2 m2).2
        = (st0.init_state env1 a1 m1).2 := by
  obtain ⟨hm, -⟩ := init_state_success_fields st0 env1 a1 m1 hsucc
  rw [Library_State.init_state, if_pos hm]
  exact ⟨rfl, rfl⟩

/-- Witness for C1 at a concrete fixture: the first initialization
succeeds, the second fails with the invalid-state error. -/
theorem C1_double_init_witness :
    (Library_State.fresh.init_state envW argsW modsW).1 = none
    ∧ ((Library_State.fresh.init_state envW argsW modsW).2.init_state
          envW argsW modsW).1
        = some (Botan_Error.Invalid_State
                  "Library_State has already been initialized") := by
  have h : (Library_State.fresh.init_state envW argsW modsW).1 = none := by
    decide
  exact ⟨h, (C1_double_init envW envW argsW argsW modsW modsW
              Library_State.fresh h).1⟩

/-- C2, counterexample: on the cyclic alias table built by
`add_alias("a","b")`, `add_alias("b","a")`, the `deref_alias` loop never
finishes on input `"a"` — no amount of fuel makes it return. -/
theorem C2_counterexample : ¬ cyclic_alias_state.Deref_Terminates "a" := by
  rintro ⟨fuel, hf⟩
  rw [cyclic_alias_no_fuel fuel "a" (Or.inl rfl)] at hf
  simp at hf

/-- C2, amended: `deref_alias(key)` terminates (and returns a non-aliased
name) whenever iterating the alias map from `key` reaches a name with no
alias entry after finitely many steps; on a cyclic alias table such as
`add_alias("a","b")`, `add_alias("b","a")` the loop does not terminate. -/
theorem C2_deref_terminates_on_finite_chain (st : Library_State)
    (key : String) (n : Nat)
    (h : st.is_set "alias" ((st.alias_step)^[n] key) = false) :
    ∃ (fuel : Nat) (v : String),
      st.deref_alias_fuel key fuel = some v
      ∧ st.is_set "alias" v = false := by
  induction n generalizing key with
  | zero =>
      have h0 : st.is_set "alias" key = false := by simpa using h
      refine ⟨1, key, ?_, h0⟩
      rw [Library_State.deref_alias_fuel, if_neg (by simp [h0])]
  | succ n ih =>
      by_cases hk : st.is_set "alias" key
      · have h' : st.is_set "alias" ((st.alias_step)^[n] (st.alias_step key))
            = false := by
          rw [← Function.iterate_succ_apply]
          exact h
        obtain ⟨fuel, v, hf, hv⟩ := ih (st.alias_step key) h'
        refine ⟨fuel + 1, v, ?_, hv⟩
        rw [Library_State.deref_alias_fuel, if_pos hk]
        exact hf
      · refine ⟨1, key, ?_, by simpa using hk⟩
        rw [Library_State.deref_alias_fuel, if_neg hk]

/-- Witness for the amended C2: the chain `x → y → z` reaches the
non-aliased name `z` in two steps, so `deref_alias("x")` terminates. -/
theorem C2_deref_terminates_witness :
    ∃ (fuel : Nat) (v : String),
      ((Library_State.fresh.add_alias "x" "y").add_alias "y" "z").deref_alias_fuel
          "x" fuel = some v
      ∧ ((Library_State.fresh.add_alias "x" "y").add_alias "y" "z").is_set
          "alias" v = false :=
  C2_deref_terminates_on_finite_chain
    ((Library_State.fresh.add_alias "x" "y").add_alias "y" "z") "x" 2
    (by decide)

/-- C3: `set` without `overwrite` writes exactly when no entry exists or
the existing value is empty (otherwise the state is untouched);
`set` with `overwrite` always writes; hence `set(s,k,"A")` then
`set(s,k,"B",overwrite=false)` leaves `"A"`, while `overwrite=true`
yields `"B"`. -/
theorem C3_set_overwrite_policy (st : Library_State) (s k v : String) :
    (st.is_set s k = false ∨ st.get s k = "" →
        (st.set s k v false).get s k = v)
    ∧ (st.is_set s k = true → st.get s k ≠ "" → st.set s k v false = st)
    ∧ ((st.set s k v true).get s k = v)
    ∧ (((st.set s k "A" true).set s k "B" false).get s k = "A")
    ∧ (((st.set s k "A" true).set s k "B" true).get s k = "B") := by
  have key_cases : st.is_set s k = false ∨ st.get s k = "" →
      mapFind? st.config (s ++ "/" ++ k) = none ∨
      mapFind? st.config (s ++ "/" ++ k) = some "" := by
    intro h
    cases hi : mapFind? st.config (s ++ "/" ++ k) with
    | none => exact Or.inl rfl
    | some x =>
        rcases h with h | h
        · rw [Library_State.is_set, hi] at h
          simp at h
        · rw [Library_State.get, hi] at h
          simp only [Option.getD_some] at h
          exact Or.inr (by rw [h])
  have hA : mapFind? (st.set s k "A" true).config (s ++ "/" ++ k)
      = some "A" := by
    rw [set_config_eq st s k "A" true (Or.inl rfl)]
    exact mapFind?_mapInsert_self st.config (s ++ "/" ++ k) "A"
  have hskipA : (st.set s k "A" true).set s k "B" false
      = st.set s k "A" true := by
    apply set_skip_eq
    rw [hA]
    simp
  refine ⟨?_, ?_, ?_, ?_, ?_⟩
  · intro h
    exact get_set_self st s k v false (Or.inr (key_cases h))
  · intro hset hval
    apply set_skip_eq
    rintro (h | h | h)
    · exact absurd h (by simp)
    · rw [Library_State.is_set, h] at hset
      simp at hset
    · rw [Library_State.get, h] at hval
      simp at hval
  · exact get_set_self st s k v true (Or.inl rfl)
  · rw [hskipA, Library_State.get, hA]
    rfl
  · exact get_set_self (st.set s k "A" true) s k "B" true (Or.inl rfl)

/-- Witness for C3 at a fresh state and concrete strings. -/
theorem C3_set_overwrite_witness :
    ((Library_State.fresh.set "s" "k" "B" false).get "s" "k" = "B")
    ∧ (((Library_State.fresh.set "s" "k" "A" true).set "s" "k" "B"
          false).get "s" "k" = "A") :=
  ⟨(C3_set_overwrite_policy Library_State.fresh "s" "k" "B").1
      (Or.inl (by decide)),
   (C3_set_overwrite_policy Library_State.fresh "s" "k" "B").2.2.2.1⟩

/-- C9: a key with no alias entry is returned unchanged by `deref_alias`
(for any positive fuel, the loop exits at once); and on the table built
by `add_alias("x","y")`, `add_alias("y","z")` the chain is followed
transitively: `deref_alias("x")` reaches `"z"`. -/
theorem C9_deref_alias_transitive (st : Library_State) (key : String)
    (h : st.is_set "alias" key = false) :
    (∀ fuel : Nat, st.deref_alias_fuel key (fuel + 1) = some key)
    ∧ ((Library_State.fresh.add_alias "x" "y").add_alias "y" "z").deref_alias_fuel
        "x" 3 = some "z" := by
  constructor
  · intro fuel
    rw [Library_State.deref_alias_fuel, if_neg (by simp [h])]
  · decide

/-- Witness for C9: a fresh state has no alias for `"q"`, and
`deref_alias("q")` returns `"q"`. -/
theorem C9_deref_alias_witness :
    Library_State.fresh.deref_alias_fuel "q" 1 = some "q" :=
  (C9_deref_alias_transitive Library_State.fresh "q" (by decide)).1 0

/-- The name `get_allocator("")` resolves on a default-cache miss: the
`base/default_allocator` option, with the built-in `"malloc"` fallback
when that option is empty. -/
def default_chosen (s : Library_State) : String :=
  if s.option "base/default_allocator" = "" then "malloc"
  else s.option "base/default_allocator"

theorem get_allocator_default (s : Library_State) :
    s.get_allocator "" =
      match s.cached_default_allocator with
      | some a => (some a, s)
      | none =>
          (allocSearch s.alloc_factory (default_chosen s),
           { s with cached_default_allocator := allocSearch s.alloc_factory (default_chosen s) }) := by
  rw [Library_State.get_allocator, if_neg (by simp)]
  rfl

theorem get_allocator_cached (s : Library_State) (a : Allocator)
    (h : s.cached_default_allocator = some a) :
    s.get_allocator "" = (some a, s) := by
  rw [get_allocator_default, h]

theorem get_allocator_miss (s : Library_State)
    (h : s.cached_default_allocator = none) :
    s.get_allocator "" =
      (allocSearch s.alloc_factory (default_chosen s),
       { s with cached_default_allocator := allocSearch s.alloc_factory (default_chosen s) }) := by
  rw [get_allocator_default, h]

theorem get_allocator_idem (s : Library_State) :
    ((s.get_allocator "").2.get_allocator "").1 = (s.get_allocator "").1 := by
  cases h : s.cached_default_allocator with
  | some a => simp [get_allocator_cached s a h]
  | none =>
      rw [get_allocator_miss s h]
      dsimp only
      cases hr : allocSearch s.alloc_factory (default_chosen s) with
      | some a => rw [get_allocator_cached _ a rfl]
      | none =>
          rw [get_allocator_miss _ rfl]
          dsimp only
          exact hr

/-- C4: the default-allocator resolution of `get_allocator("")` is
memoized — on every state, a second call returns the same provider; on a
cache miss the `base/default_allocator` option (with the built-in
`"malloc"` fallback when that option is empty/unset) is resolved against
the name table and the result cached; and on every state — warm or cold
cache — `set_default_allocator(t)` for a non-empty registered `t`
followed by `get_allocator("")` yields `t`'s provider, because the
former invalidates the cache. -/
theorem C4_allocator_caching (st : Library_State) (t : String)
    (a : Allocator)
    (ht : t ≠ "")
    (hreg : allocSearch st.alloc_factory t = some a) :
    (∀ s : Library_State,
        ((s.get_allocator "").2.get_allocator "").1 = (s.get_allocator "").1)
    ∧ (st.cached_default_allocator = none →
        (st.get_allocator "").1
          = allocSearch st.alloc_factory (default_chosen st))
    ∧ (st.cached_default_allocator = none →
        (st.get_allocator "").2.cached_default_allocator
          = (st.get_allocator "").1)
    ∧ (((st.set_default_allocator t).get_allocator "").1 = some a) := by
  refine ⟨get_allocator_idem, ?_, ?_, ?_⟩
  · intro hmiss
    rw [get_allocator_miss st hmiss]
  · intro hmiss
    rw [get_allocator_miss st hmiss]
  · have hsda : st.set_default_allocator t
        = { st.set "conf" "base/default_allocator" t true with
              cached_default_allocator := none } := by
      rw [Library_State.set_default_allocator, if_neg ht]
    have hopt : ({ st.set "conf" "base/default_allocator" t true with
          cached_default_allocator := none } : Library_State).option
            "base/default_allocator" = t := by
      show (st.set "conf" "base/default_allocator" t true).get "conf"
          "base/default_allocator" = t
      exact get_set_self st "conf" "base/default_allocator" t true
        (Or.inl rfl)
    have hfac : ({ st.set "conf" "base/default_allocator" t true with
          cached_default_allocator := none } : Library_State).alloc_factory
            = st.alloc_factory := by
      show (st.set "conf" "base/default_allocator" t true).alloc_factory = _
      exact set_alloc_factory ..
    rw [hsda, get_allocator_miss _ rfl]
    dsimp only
    unfold default_chosen
    rw [hopt, if_neg ht, hfac]
    exact hreg

/-- Fixture: a registry with a `malloc` provider (the default on a fresh
configuration) and a `locking` provider. -/
def stAlW : Library_State :=
  (Library_State.fresh.add_allocator ⟨1, "malloc"⟩).add_allocator
    ⟨2, "locking"⟩

/-- Witness for C4: on the fixture, the default resolves to the `malloc`
provider; `set_default_allocator("locking")` then `get_allocator("")`
yields the `locking` provider both from the cold-cache fixture and from
the warm-cache state left by a prior `get_allocator("")` (the spec's
get, set-default, get scenario). -/
theorem C4_allocator_caching_witness :
    (stAlW.get_allocator "").1 = some ⟨1, "malloc"⟩
    ∧ ((stAlW.set_default_allocator "locking").get_allocator "").1
        = some ⟨2, "locking"⟩
    ∧ ((((stAlW.get_allocator "").2.set_default_allocator
          "locking").get_allocator "").1 = some ⟨2, "locking"⟩) := by
  have h := C4_allocator_caching stAlW "locking" ⟨2, "locking"⟩
      (by decide) (by decide)
  have hwarm := C4_allocator_caching (stAlW.get_allocator "").2 "locking"
      ⟨2, "locking"⟩ (by decide) (by decide)
  refine ⟨?_, h.2.2.2, hwarm.2.2.2⟩
  rw [h.2.1 (by decide)]
  decide

/-- C5: `swap_global_state` returns the previously installed state,
installs the new one, and destroys nothing; and `set_global_state` —
which the source defines as `delete swap_global_state(new_state)` —
coincides with the spec's description "install the new state, destroying
whatever was previously installed". -/
theorem C5_global_state_swap_set (p : Nat) (n : Option Nat)
    (env : Global_Env)
    (h : env.global_lib_state = some p) :
    (swap_global_state n env).1 = some p
    ∧ (swap_global_state n env).2.global_lib_state = n
    ∧ (swap_global_state n env).2.live_states = env.live_states
    ∧ (∀ (n' : Option Nat) (env' : Global_Env),
        set_global_state n' env' = set_global_state_spec n' env') := by
  refine ⟨h, rfl, rfl, ?_⟩
  intro n' env'
  simp only [set_global_state, swap_global_state, set_global_state_spec,
    delete_state]
  cases env'.global_lib_state <;> rfl

/-- Witness for C5 at a concrete environment holding state `1` with
states `1` and `2` alive. -/
theorem C5_global_state_witness :
    (swap_global_state (some 5) ⟨some 1, [1, 2]⟩).1 = some 1
    ∧ (swap_global_state (some 5) ⟨some 1, [1, 2]⟩).2.live_states
        = [1, 2] :=
  ⟨(C5_global_state_swap_set 1 (some 5) ⟨some 1, [1, 2]⟩ rfl).1,
   (C5_global_state_swap_set 1 (some 5) ⟨some 1, [1, 2]⟩ rfl).2.2.1⟩

/-- C6: after `N` `add_allocator` calls on a state with no prior
providers, the destructor's `destroy()` loop visits exactly the `N`
registered providers, one `destroy()` each — no duplicates, no
omissions — even when providers share a type name (the name table then
keeps only the last, but the owned vector, which the destructor
iterates, keeps all). -/
theorem C6_teardown_once_per_provider (st : Library_State)
    (adds : List Allocator)
    (h0 : st.allocators = [])
    (hids : (adds.map Allocator.id).Nodup) :
    ((adds.foldl (fun s a => s.add_allocator a) st).destructor_destroy_seq
        = adds)
    ∧ (∀ a ∈ adds,
        (((adds.foldl (fun s a => s.add_allocator a)
            st).destructor_destroy_seq.map Allocator.id).count a.id) = 1) := by
  have hseq : (adds.foldl (fun s a => s.add_allocator a)
      st).destructor_destroy_seq = adds := by
    rw [Library_State.destructor_destroy_seq,
        foldl_add_allocator_allocators, h0]
    rfl
  refine ⟨hseq, ?_⟩
  intro a ha
  rw [hseq]
  exact List.count_eq_one_of_mem hids (List.mem_map_of_mem _ ha)

/-- Witness for C6: two providers sharing the type name `"malloc"` are
both in the destroy sequence, each exactly once. -/
theorem C6_teardown_witness :
    (([⟨1, "malloc"⟩, ⟨2, "malloc"⟩] : List Allocator).foldl
        (fun s a => s.add_allocator a)
        Library_State.fresh).destructor_destroy_seq
      = [⟨1, "malloc"⟩, ⟨2, "malloc"⟩]
    ∧ ((([⟨1, "malloc"⟩, ⟨2, "malloc"⟩] : List Allocator).foldl
        (fun s a => s.add_allocator a)
        Library_State.fresh).destructor_destroy_seq.map
          Allocator.id).count 2 = 1 := by
  have h := C6_teardown_once_per_provider Library_State.fresh
      [⟨1, "malloc"⟩, ⟨2, "malloc"⟩] (by decide) (by decide)
  exact ⟨h.1, h.2 ⟨2, "malloc"⟩ (by decide)⟩

/-- C7: with self-tests compiled in, requesting FIPS mode or an explicit
self-test makes a failing suite abort initialization with the fatal
self-test failure; with neither flag requested, initialization succeeds
whatever the suite would report (the suite is never consulted). -/
theorem C7_self_test_gate (env : Build_Env) (args : InitializerOptions)
    (mods : Modules) (st : Library_State)
    (hun : st.mutex_factory = none)
    (hmf : (mods.mutex_factory args.thread_safe).isSome = true)
    (hcomp : env.selftest_compiled = true) :
    ((args.fips_mode || args.self_test) = true →
        env.passes_self_tests = false →
        (st.init_state env args mods).1
          = some (Botan_Error.Self_Test_Failure "Initialization self-tests"))
    ∧ ((args.fips_mode || args.self_test) = false →
        (st.init_state env args mods).1 = none) := by
  have hm : st.mutex_factory.isSome = false := by rw [hun]; rfl
  obtain ⟨mf, hmf'⟩ := Option.isSome_iff_exists.mp hmf
  have hfst : ∀ (c : Bool) (e : Botan_Error) (s : Library_State),
      ((if c then (some e, s) else (none, s)) :
        Option Botan_Error × Library_State).1
        = if c then some e else none := by
    intro c e s; split <;> rfl
  constructor
  · intro hflags hfail
    rw [Library_State.init_state, if_neg (by simp [hm]), hmf', hfst,
        hcomp, hflags, hfail]
    rfl
  · intro hflags
    rw [Library_State.init_state, if_neg (by simp [hm]), hmf', hfst,
        hflags]
    simp

/-- Fixture: self-tests compiled in but failing. -/
def envFailW : Build_Env :=
  { selftest_compiled := true
    passes_self_tests := false
    default_config := [] }

/-- Fixture: FIPS mode requested. -/
def argsFipsW : InitializerOptions :=
  { thread_safe := true, fips_mode := true, self_test := false }

/-- Witness for C7: with the failing suite, a FIPS-mode initialization
aborts with the self-test failure, while one requesting neither flag
succeeds. -/
theorem C7_self_test_witness :
    (Library_State.fresh.init_state envFailW argsFipsW modsW).1
      = some (Botan_Error.Self_Test_Failure "Initialization self-tests")
    ∧ (Library_State.fresh.init_state envFailW argsW modsW).1 = none :=
  ⟨(C7_self_test_gate envFailW argsFipsW modsW Library_State.fresh
      rfl rfl rfl).1 rfl rfl,
   (C7_self_test_gate envFailW argsW modsW Library_State.fresh
      rfl rfl rfl).2 rfl⟩

/-- C8: before the Algorithm Factory exists, `algo_factory()` fails with
the "uninitialized" invalid-state error; after a successful
initialization it returns the constructed factory (the engines offered
by the module descriptor, in order) without error. -/
theorem C8_algo_factory_gate (st : Library_State) (env : Build_Env)
    (args : InitializerOptions) (mods : Modules) :
    (st.algorithm_factory = none →
        st.algo_factory = .error (.Invalid_State
            "Uninitialized in Library_State::algo_factory"))
    ∧ ((st.init_state env args mods).1 = none →
        (st.init_state env args mods).2.algo_factory = .ok mods.engines) := by
  constructor
  · intro h
    unfold Library_State.algo_factory
    rw [h]
  · intro h
    obtain ⟨-, haf⟩ := init_state_success_fields st env args mods h
    unfold Library_State.algo_factory
    rw [haf]

/-- Witness for C8: a fresh state reports "uninitialized"; after the
fixture initialization succeeds, the factory holds the fixture's
engines. -/
theorem C8_algo_factory_witness :
    Library_State.fresh.algo_factory
      = .error (.Invalid_State "Uninitialized in Library_State::algo_factory")
    ∧ (Library_State.fresh.init_state envW argsW modsW).2.algo_factory
      = .ok modsW.engines :=
  ⟨(C8_algo_factory_gate Library_State.fresh envW argsW modsW).1 rfl,
   (C8_algo_factory_gate Library_State.fresh envW argsW modsW).2
      (by decide)⟩

/-- C10: `set_default_allocator("")` is a complete no-op — the state is
returned unchanged (no config write, no cache invalidation), so a
following `get_allocator("")` behaves exactly as before the call. -/
theorem C10_set_default_allocator_empty_noop (st : Library_State) :
    st.set_default_allocator "" = st
    ∧ (st.set_default_allocator "").get_allocator ""
        = st.get_allocator "" := by
  have h : st.set_default_allocator "" = st := by
    rw [Library_State.set_default_allocator, if_pos rfl]
  exact ⟨h, by rw [h]⟩

end BotanSpec
